import Mathlib

/-!
Verification of the export-invoice risk engine in processor.py.

The engine operates on Python dict values that are either missing (None),
strings, or numbers.  We embed such values as `PyVal`, Python truthiness as
`truthy`, and the numeric fields as exact rationals.  The global counter
dictionary SYSTEM_STATS is threaded explicitly through the functions that
mutate it.
-/

/-- A Python value stored in an invoice field: None, a string, or a number.
Numbers are embedded as exact rationals. -/
inductive PyVal where
  | none
  | str (s : String)
  | num (q : Rat)
deriving DecidableEq

/-- Python truthiness of a field value: None is falsy, a string is truthy
iff non-empty, a number is truthy iff nonzero. -/
def truthy : PyVal → Bool
  | .none => false
  | .str s => decide (s ≠ "")
  | .num q => decide (q ≠ 0)

/-- Python-style whitespace character (ASCII subset used by str.strip). -/
def isPyWs (c : Char) : Bool :=
  c = ' ' ∨ c = '\t' ∨ c = '\n' ∨ c = '\r'

/-- Model of Python str.strip: drop leading and trailing whitespace. -/
def pyStrip (s : String) : String :=
  String.mk (((s.data.dropWhile isPyWs).reverse.dropWhile isPyWs).reverse)

/-- Model of Python str.replace with a one-character pattern and empty
replacement, as in val.replace in safe_number: drop every comma. -/
def dropCommas (s : String) : String :=
  String.mk (s.data.filter (fun c => c ≠ ','))

/-- Numeric value of a list of decimal digit characters. -/
def digitsVal (ds : List Char) : Nat :=
  ds.foldl (fun n c => 10 * n + (c.toNat - 48)) 0

/-- Model of the Python builtin float applied to a string: an optional
sign, a decimal mantissa (digits, possibly with one decimal point), and an
optional exponent part.  Returns Option.none when the string is not a valid
float literal (the embedding covers plain decimal literals; special forms
such as inf or nan never arise in this code base). -/
def pyFloat (s : String) : Option Rat :=
  let cs := s.data
  let sgn : Int × List Char :=
    match cs with
    | '+' :: rest => (1, rest)
    | '-' :: rest => (-1, rest)
    | rest => (1, rest)
  let ip := sgn.2.takeWhile Char.isDigit
  let afterIp := sgn.2.dropWhile Char.isDigit
  let fracPart : Option (List Char) × List Char :=
    match afterIp with
    | '.' :: rest => (some (rest.takeWhile Char.isDigit), rest.dropWhile Char.isDigit)
    | rest => (Option.none, rest)
  let frac := fracPart.1.getD []
  if ip.isEmpty ∧ frac.isEmpty then Option.none
  else
    let mantNum : Int := sgn.1 * (digitsVal ip * 10 ^ frac.length + digitsVal frac : Nat)
    let mantDen : Nat := 10 ^ frac.length
    match fracPart.2 with
    | [] => some (mkRat mantNum mantDen)
    | c :: rest =>
      if c = 'e' ∨ c = 'E' then
        let esgn : Bool × List Char :=
          match rest with
          | '+' :: r => (true, r)
          | '-' :: r => (false, r)
          | r => (true, r)
        let ed := esgn.2.takeWhile Char.isDigit
        let afterEd := esgn.2.dropWhile Char.isDigit
        if ed.isEmpty ∨ ¬ afterEd.isEmpty then Option.none
        else if esgn.1 then
          some (mkRat (mantNum * 10 ^ digitsVal ed) mantDen)
        else
          some (mkRat mantNum (mantDen * 10 ^ digitsVal ed))
      else Option.none

/-- safe_number from processor.py: None maps to None; otherwise the value
is converted to a string, commas removed, whitespace stripped, and parsed
as a float, with any parse failure degrading to None.  For an input that is
already a number, str followed by float round-trips the value, so the
number is returned unchanged. -/
def safe_number : PyVal → Option Rat
  | .none => Option.none
  | .num q => some q
  | .str s => pyFloat (pyStrip (dropCommas s))

/-- The invoice record assembled by the extraction pipeline: every field a
dict entry that may be absent (None), plus the line_items list. -/
structure InvoiceRecord where
  invoice_number : PyVal
  invoice_date : PyVal
  seller_name : PyVal
  buyer_name : PyVal
  gstin : PyVal
  iec_code : PyVal
  currency : PyVal
  subtotal : PyVal
  tax_amount : PyVal
  total_amount : PyVal
  hsn_code : PyVal
  incoterms : PyVal
  lut_reference : PyVal
  line_items : List PyVal
deriving DecidableEq

/-- The record with every field absent and no line items. -/
def emptyInvoice : InvoiceRecord :=
  ⟨.none, .none, .none, .none, .none, .none, .none, .none, .none, .none, .none, .none, .none, []⟩

/-- The SYSTEM_STATS dictionary of processor.py. -/
structure SystemStats where
  invoices_analyzed : Nat
  risky_shipments : Nat
  holds_predicted : Nat
deriving DecidableEq

/-- The result dict of assess_export_risk. -/
structure RiskAssessment where
  risk_score : Nat
  risk_level : String
  confidence : String
  shipment_decision : String
  risk_reasons : List String
  fix_suggestions : List String
  risk_summary : String
deriving DecidableEq

/-- The accumulator of the nested penalize closure in assess_export_risk:
the running score and the reasons and fixes lists. -/
structure PenState where
  score : Nat
  reasons : List String
  fixes : List String
deriving DecidableEq

/-- penalize from assess_export_risk: add the points and append the reason
and fix strings. -/
def penalize (st : PenState) (points : Nat) (reason fix : String) : PenState :=
  { score := st.score + points
    reasons := st.reasons ++ [reason]
    fixes := st.fixes ++ [fix] }

/-- The R5 condition on the normalized total: total is None or total <= 0. -/
def invalidTotal : Option Rat → Bool
  | Option.none => true
  | some q => decide (q ≤ 0)

/-- The level expression of assess_export_risk, line 176. -/
def riskLevel (score : Nat) : String :=
  if score < 30 then "Low" else if score < 60 then "Medium" else "High"

/-- The decision expression of assess_export_risk, lines 177 to 181. -/
def shipmentDecision (level : String) : String :=
  if level = "Low" then "SAFE_TO_SHIP"
  else if level = "Medium" then "REVIEW_BEFORE_SHIPPING"
  else "DO_NOT_SHIP"

/-- The five penalize steps of assess_export_risk in source order: R1 to
R5 applied to the initial empty accumulator. -/
def assessPenalties (invoice : InvoiceRecord) : PenState :=
  let st0 : PenState := ⟨0, [], []⟩
  let st1 := if !truthy invoice.iec_code then
      penalize st0 25 "IEC missing" "Add valid IEC" else st0
  let st2 := if !truthy invoice.hsn_code then
      penalize st1 20 "HSN missing" "Declare correct HSN" else st1
  let st3 := if !truthy invoice.incoterms then
      penalize st2 15 "Incoterms missing" "Specify FOB / CIF" else st2
  let st4 := if invoice.currency = PyVal.str "INR" then
      penalize st3 20 "Export invoiced in INR" "Use permitted foreign currency" else st3
  let total := safe_number invoice.total_amount
  if invalidTotal total then
      penalize st4 20 "Invoice value invalid" "Correct invoice total" else st4

/-- assess_export_risk from processor.py, with the SYSTEM_STATS side
effect made explicit: the five penalize steps in source order, the clamp
to 100, level and decision, the two counter increments, and the result
dict. -/
def assess_export_risk (invoice : InvoiceRecord) (stats : SystemStats) :
    RiskAssessment × SystemStats :=
  let st5 := assessPenalties invoice
  let score := min st5.score 100
  let level := riskLevel score
  let decision := shipmentDecision level
  let stats1 := if level = "Medium" ∨ level = "High" then
      { stats with risky_shipments := stats.risky_shipments + 1 } else stats
  let stats2 := if 70 ≤ score then
      { stats1 with holds_predicted := stats1.holds_predicted + 1 } else stats1
  ({ risk_score := score
     risk_level := level
     confidence := "Medium"
     shipment_decision := decision
     risk_reasons := st5.reasons
     fix_suggestions := st5.fixes
     risk_summary := level ++ " customs risk based on compliance signals" }, stats2)

/-- simulate_changes from processor.py: copy the record, override
total_amount when new_value is truthy, override incoterms when
new_incoterm differs from the sentinel, re-run the risk engine (with its
counter side effects), and return only the score and summary. -/
def simulate_changes (invoice : InvoiceRecord) (new_value : PyVal)
    (new_incoterm : String) (stats : SystemStats) :
    (Nat × String) × SystemStats :=
  let simulated := invoice
  let simulated := if truthy new_value then
      { simulated with total_amount := new_value } else simulated
  let simulated := if new_incoterm ≠ "UNCHANGED" then
      { simulated with incoterms := PyVal.str new_incoterm } else simulated
  let r := assess_export_risk simulated stats
  ((r.1.risk_score, r.1.risk_summary), r.2)

/-- customs_officer_view from processor.py: collect the three clauses in
source order and join them, or return the fixed no-red-flags string. -/
def customs_officer_view (invoice : InvoiceRecord) : String :=
  let issues : List String := []
  let issues := if !truthy invoice.hsn_code then issues ++ ["HSN not declared"] else issues
  let issues := if !truthy invoice.incoterms then issues ++ ["Incoterms missing"] else issues
  let issues := if invoice.currency = PyVal.str "INR" then
      issues ++ ["Export invoiced in INR"] else issues
  if !issues.isEmpty then
    "A customs officer may question this shipment because " ++ String.intercalate "; " issues
  else
    "Invoice appears standard with no obvious red flags."

/-- The rule table of the specification, R1 to R5 in evaluation order:
each fired rule contributes its weight, reason and fix. -/
def firedList (invoice : InvoiceRecord) : List (Nat × String × String) :=
  (if !truthy invoice.iec_code then [(25, "IEC missing", "Add valid IEC")] else [])
  ++ (if !truthy invoice.hsn_code then [(20, "HSN missing", "Declare correct HSN")] else [])
  ++ (if !truthy invoice.incoterms then [(15, "Incoterms missing", "Specify FOB / CIF")] else [])
  ++ (if invoice.currency = PyVal.str "INR" then
        [(20, "Export invoiced in INR", "Use permitted foreign currency")] else [])
  ++ (if invalidTotal (safe_number invoice.total_amount) then
        [(20, "Invoice value invalid", "Correct invoice total")] else [])

/-- The clause list of the specification of the explanation generator,
in its fixed order. -/
def officerClauses (invoice : InvoiceRecord) : List String :=
  (if !truthy invoice.hsn_code then ["HSN not declared"] else [])
  ++ (if !truthy invoice.incoterms then ["Incoterms missing"] else [])
  ++ (if invoice.currency = PyVal.str "INR" then ["Export invoiced in INR"] else [])

/-- The risk engine realizes the rule table: score is the clamped sum of
fired weights, and the reasons and fixes are the projections of the fired
rules in evaluation order.  Shared characterization lemma. -/
theorem assess_fired_rules (inv : InvoiceRecord) (stats : SystemStats) :
    (assess_export_risk inv stats).1.risk_score
        = min (((firedList inv).map fun r => r.1).sum) 100
    ∧ (assess_export_risk inv stats).1.risk_reasons
        = ((firedList inv).map fun r => r.2.1)
    ∧ (assess_export_risk inv stats).1.fix_suggestions
        = ((firedList inv).map fun r => r.2.2) := by
  cases h1 : truthy inv.iec_code <;>
  cases h2 : truthy inv.hsn_code <;>
  cases h3 : truthy inv.incoterms <;>
  by_cases h4 : inv.currency = PyVal.str "INR" <;>
  cases h5 : invalidTotal (safe_number inv.total_amount) <;>
    simp [assess_export_risk, assessPenalties, firedList, penalize, h1, h2, h3, h4, h5]

example : (assess_export_risk emptyInvoice ⟨0, 0, 0⟩).1.risk_score = 80 := by decide
example : safe_number (PyVal.str " 12,500.75 ") = some (mkRat 50003 4) := by decide
example : safe_number (PyVal.str "abc") = Option.none := by decide
example : pyFloat "2e3" = some 2000 := by decide
example : pyFloat "-1.5e-1" = some (mkRat (-3) 20) := by decide
example : pyFloat "." = Option.none := by decide
example : pyFloat "5." = some 5 := by decide
example : pyFloat ".25" = some (mkRat 1 4) := by decide
example : customs_officer_view emptyInvoice =
    "A customs officer may question this shipment because HSN not declared; Incoterms missing" := by
  decide

/-- C1: assess evaluates exactly the five rules R1 to R5 in order, with the
specified weights, reasons and fixes; the score is the sum of the fired
weights clamped to 100, and the reasons and fixes hold one entry per fired
rule, equal in length and paired in rule-evaluation order. -/
theorem assess_rule_table_pairing (inv : InvoiceRecord) (stats : SystemStats) :
    (assess_export_risk inv stats).1.risk_score
        = min (((firedList inv).map fun r => r.1).sum) 100
    ∧ (assess_export_risk inv stats).1.risk_reasons
        = ((firedList inv).map fun r => r.2.1)
    ∧ (assess_export_risk inv stats).1.fix_suggestions
        = ((firedList inv).map fun r => r.2.2)
    ∧ (assess_export_risk inv stats).1.risk_reasons.length
        = (assess_export_risk inv stats).1.fix_suggestions.length := by
  obtain ⟨hsc, hre, hfx⟩ := assess_fired_rules inv stats
  refine ⟨hsc, hre, hfx, ?_⟩
  rw [hre, hfx]
  simp

/-- C2: the risk level is Low exactly below 30, Medium exactly in 30 to 59,
High exactly from 60, and the shipment decision is the fixed mapping of
the level, always one of the three decision strings. -/
theorem assess_level_decision_mapping (inv : InvoiceRecord) (stats : SystemStats) :
    let a := (assess_export_risk inv stats).1
    (a.risk_level = "Low" ↔ a.risk_score < 30)
    ∧ (a.risk_level = "Medium" ↔ 30 ≤ a.risk_score ∧ a.risk_score < 60)
    ∧ (a.risk_level = "High" ↔ 60 ≤ a.risk_score)
    ∧ (a.risk_level = "Low" → a.shipment_decision = "SAFE_TO_SHIP")
    ∧ (a.risk_level = "Medium" → a.shipment_decision = "REVIEW_BEFORE_SHIPPING")
    ∧ (a.risk_level = "High" → a.shipment_decision = "DO_NOT_SHIP")
    ∧ (a.shipment_decision = "SAFE_TO_SHIP"
        ∨ a.shipment_decision = "REVIEW_BEFORE_SHIPPING"
        ∨ a.shipment_decision = "DO_NOT_SHIP") := by
  have hl : (assess_export_risk inv stats).1.risk_level
      = riskLevel ((assess_export_risk inv stats).1.risk_score) := rfl
  have hd : (assess_export_risk inv stats).1.shipment_decision
      = shipmentDecision ((assess_export_risk inv stats).1.risk_level) := rfl
  intro a
  show (a.risk_level = "Low" ↔ a.risk_score < 30) ∧ _
  rw [show a.risk_level = riskLevel a.risk_score from hl,
      show a.shipment_decision = shipmentDecision a.risk_level from hd,
      show a.risk_level = riskLevel a.risk_score from hl]
  generalize a.risk_score = s
  unfold riskLevel shipmentDecision
  by_cases h30 : s < 30 <;> by_cases h60 : s < 60 <;> simp [h30, h60] <;> omega

/-- A witness for C2 at the all-absent record. -/
theorem assess_level_decision_mapping_witness :
    let a := (assess_export_risk emptyInvoice ⟨0, 0, 0⟩).1
    (a.risk_level = "Low" ↔ a.risk_score < 30)
    ∧ (a.risk_level = "Medium" ↔ 30 ≤ a.risk_score ∧ a.risk_score < 60)
    ∧ (a.risk_level = "High" ↔ 60 ≤ a.risk_score)
    ∧ (a.risk_level = "Low" → a.shipment_decision = "SAFE_TO_SHIP")
    ∧ (a.risk_level = "Medium" → a.shipment_decision = "REVIEW_BEFORE_SHIPPING")
    ∧ (a.risk_level = "High" → a.shipment_decision = "DO_NOT_SHIP")
    ∧ (a.shipment_decision = "SAFE_TO_SHIP"
        ∨ a.shipment_decision = "REVIEW_BEFORE_SHIPPING"
        ∨ a.shipment_decision = "DO_NOT_SHIP") :=
  assess_level_decision_mapping emptyInvoice ⟨0, 0, 0⟩

/-- C3 counterexample: on the record with every field absent the engine
returns risk score 80, not 100, because R4 cannot fire when the currency
field is absent. -/
theorem all_absent_score_eq_80_ne_100 :
    (assess_export_risk emptyInvoice ⟨0, 0, 0⟩).1.risk_score = 80
    ∧ (assess_export_risk emptyInvoice ⟨0, 0, 0⟩).1.risk_score ≠ 100 := by
  decide

/-- C3 amended: assess applied to an InvoiceRecord with every field absent
returns a RiskAssessment whose risk score is exactly 80. -/
theorem all_absent_score_80 (stats : SystemStats) :
    (assess_export_risk emptyInvoice stats).1.risk_score = 80 := rfl

/-- C4: whenever the four required fields are absent and the currency is
not INR, exactly R1, R2, R3 and R5 fire: the reasons are those four in
order, the score is 80, the level High, and the decision DO_NOT_SHIP. -/
theorem assess_scenario_all_absent (inv : InvoiceRecord) (stats : SystemStats)
    (hiec : inv.iec_code = PyVal.none) (hhsn : inv.hsn_code = PyVal.none)
    (hinc : inv.incoterms = PyVal.none) (htot : inv.total_amount = PyVal.none)
    (hcur : inv.currency ≠ PyVal.str "INR") :
    (assess_export_risk inv stats).1.risk_reasons
        = ["IEC missing", "HSN missing", "Incoterms missing", "Invoice value invalid"]
    ∧ (assess_export_risk inv stats).1.fix_suggestions
        = ["Add valid IEC", "Declare correct HSN", "Specify FOB / CIF", "Correct invoice total"]
    ∧ (assess_export_risk inv stats).1.risk_score = 80
    ∧ (assess_export_risk inv stats).1.risk_level = "High"
    ∧ (assess_export_risk inv stats).1.shipment_decision = "DO_NOT_SHIP" := by
  simp [assess_export_risk, assessPenalties, penalize, riskLevel, shipmentDecision,
    hiec, hhsn, hinc, htot, hcur, truthy, safe_number, invalidTotal]

/-- A witness for C4 at the all-absent record. -/
theorem assess_scenario_all_absent_witness :
    (assess_export_risk emptyInvoice ⟨0, 0, 0⟩).1.risk_reasons
        = ["IEC missing", "HSN missing", "Incoterms missing", "Invoice value invalid"]
    ∧ (assess_export_risk emptyInvoice ⟨0, 0, 0⟩).1.fix_suggestions
        = ["Add valid IEC", "Declare correct HSN", "Specify FOB / CIF", "Correct invoice total"]
    ∧ (assess_export_risk emptyInvoice ⟨0, 0, 0⟩).1.risk_score = 80
    ∧ (assess_export_risk emptyInvoice ⟨0, 0, 0⟩).1.risk_level = "High"
    ∧ (assess_export_risk emptyInvoice ⟨0, 0, 0⟩).1.shipment_decision = "DO_NOT_SHIP" :=
  assess_scenario_all_absent emptyInvoice ⟨0, 0, 0⟩ rfl rfl rfl rfl (by decide)

/-- C5: on a record where R1, R2, R3 or R5 fires, supplying a value for
exactly the corresponding field (a non-empty string, or a positive total)
never increases the score and removes exactly the reason/fix pair of that rule,
leaving all other pairs unchanged in order. -/
theorem assess_single_fix_monotone (inv : InvoiceRecord) (stats : SystemStats)
    (s : String) (q : Rat) (hs : s ≠ "") (hq : 0 < q) :
    (truthy inv.iec_code = false →
      (assess_export_risk { inv with iec_code := PyVal.str s } stats).1.risk_score
          ≤ (assess_export_risk inv stats).1.risk_score
      ∧ (assess_export_risk { inv with iec_code := PyVal.str s } stats).1.risk_reasons
          = ((assess_export_risk inv stats).1.risk_reasons).erase "IEC missing"
      ∧ (assess_export_risk { inv with iec_code := PyVal.str s } stats).1.fix_suggestions
          = ((assess_export_risk inv stats).1.fix_suggestions).erase "Add valid IEC")
    ∧ (truthy inv.hsn_code = false →
      (assess_export_risk { inv with hsn_code := PyVal.str s } stats).1.risk_score
          ≤ (assess_export_risk inv stats).1.risk_score
      ∧ (assess_export_risk { inv with hsn_code := PyVal.str s } stats).1.risk_reasons
          = ((assess_export_risk inv stats).1.risk_reasons).erase "HSN missing"
      ∧ (assess_export_risk { inv with hsn_code := PyVal.str s } stats).1.fix_suggestions
          = ((assess_export_risk inv stats).1.fix_suggestions).erase "Declare correct HSN")
    ∧ (truthy inv.incoterms = false →
      (assess_export_risk { inv with incoterms := PyVal.str s } stats).1.risk_score
          ≤ (assess_export_risk inv stats).1.risk_score
      ∧ (assess_export_risk { inv with incoterms := PyVal.str s } stats).1.risk_reasons
          = ((assess_export_risk inv stats).1.risk_reasons).erase "Incoterms missing"
      ∧ (assess_export_risk { inv with incoterms := PyVal.str s } stats).1.fix_suggestions
          = ((assess_export_risk inv stats).1.fix_suggestions).erase "Specify FOB / CIF")
    ∧ (invalidTotal (safe_number inv.total_amount) = true →
      (assess_export_risk { inv with total_amount := PyVal.num q } stats).1.risk_score
          ≤ (assess_export_risk inv stats).1.risk_score
      ∧ (assess_export_risk { inv with total_amount := PyVal.num q } stats).1.risk_reasons
          = ((assess_export_risk inv stats).1.risk_reasons).erase "Invoice value invalid"
      ∧ (assess_export_risk { inv with total_amount := PyVal.num q } stats).1.fix_suggestions
          = ((assess_export_risk inv stats).1.fix_suggestions).erase "Correct invoice total") := by
  have hts : truthy (PyVal.str s) = true := by simp [truthy, hs]
  have htq : invalidTotal (safe_number (PyVal.num q)) = false := by
    simp only [safe_number, invalidTotal]
    exact decide_eq_false (not_le.mpr hq)
  refine ⟨fun h1 => ?_, fun h2 => ?_, fun h3 => ?_, fun h5 => ?_⟩
  · cases h2 : truthy inv.hsn_code <;> cases h3 : truthy inv.incoterms <;>
    by_cases h4 : inv.currency = PyVal.str "INR" <;>
    cases h5 : invalidTotal (safe_number inv.total_amount) <;>
      simp [assess_export_risk, assessPenalties, penalize, h1, h2, h3, h4, h5, hts]
  · cases h1 : truthy inv.iec_code <;> cases h3 : truthy inv.incoterms <;>
    by_cases h4 : inv.currency = PyVal.str "INR" <;>
    cases h5 : invalidTotal (safe_number inv.total_amount) <;>
      simp [assess_export_risk, assessPenalties, penalize, h1, h2, h3, h4, h5, hts]
  · cases h1 : truthy inv.iec_code <;> cases h2 : truthy inv.hsn_code <;>
    by_cases h4 : inv.currency = PyVal.str "INR" <;>
    cases h5 : invalidTotal (safe_number inv.total_amount) <;>
      simp [assess_export_risk, assessPenalties, penalize, h1, h2, h3, h4, h5, hts]
  · cases h1 : truthy inv.iec_code <;> cases h2 : truthy inv.hsn_code <;>
    cases h3 : truthy inv.incoterms <;>
    by_cases h4 : inv.currency = PyVal.str "INR" <;>
      simp [assess_export_risk, assessPenalties, penalize, h1, h2, h3, h4, h5, htq]

/-- A witness for C5 at the all-absent record, a non-empty string and a
positive total. -/
theorem assess_single_fix_monotone_witness :
    (assess_export_risk { emptyInvoice with iec_code := PyVal.str "0123456789" } ⟨0, 0, 0⟩).1.risk_score
        ≤ (assess_export_risk emptyInvoice ⟨0, 0, 0⟩).1.risk_score
    ∧ (assess_export_risk { emptyInvoice with iec_code := PyVal.str "0123456789" } ⟨0, 0, 0⟩).1.risk_reasons
        = ((assess_export_risk emptyInvoice ⟨0, 0, 0⟩).1.risk_reasons).erase "IEC missing"
    ∧ (assess_export_risk { emptyInvoice with iec_code := PyVal.str "0123456789" } ⟨0, 0, 0⟩).1.fix_suggestions
        = ((assess_export_risk emptyInvoice ⟨0, 0, 0⟩).1.fix_suggestions).erase "Add valid IEC" :=
  (assess_single_fix_monotone emptyInvoice ⟨0, 0, 0⟩ "0123456789" 5
    (by decide) (by decide)).1 rfl

/-- C6: safe_number is total: None and the empty string map to absent, an
already numeric value is returned unchanged, string input is parsed after
comma removal and whitespace stripping, and unparsable text degrades to
absent, never to zero. -/
theorem safe_number_spec :
    safe_number PyVal.none = Option.none
    ∧ safe_number (PyVal.str "") = Option.none
    ∧ (∀ q : Rat, safe_number (PyVal.num q) = some q)
    ∧ safe_number (PyVal.str " 12,500.75 ") = some (mkRat 50003 4)
    ∧ safe_number (PyVal.str "1,000") = some 1000
    ∧ (∀ s : String, pyFloat (pyStrip (dropCommas s)) = Option.none →
        safe_number (PyVal.str s) = Option.none ∧ safe_number (PyVal.str s) ≠ some 0) := by
  refine ⟨rfl, by decide, fun q => rfl, by decide, by decide, fun s h => ⟨?_, ?_⟩⟩
  · simpa [safe_number] using h
  · simp [safe_number, h]

/-- A witness for C6 on an unparsable string. -/
theorem safe_number_spec_witness :
    safe_number (PyVal.str "12abc") = Option.none
    ∧ safe_number (PyVal.str "12abc") ≠ some 0 :=
  safe_number_spec.2.2.2.2.2 "12abc" (by decide)

/-- C7: simulate with new total 0 and the UNCHANGED sentinel reproduces
exactly the score of assess on the base record: 0 is treated as no
override and UNCHANGED leaves incoterms untouched. -/
theorem simulate_neutral_overrides_identity (inv : InvoiceRecord) (stats : SystemStats) :
    (simulate_changes inv (PyVal.num 0) "UNCHANGED" stats).1.1
      = (assess_export_risk inv stats).1.risk_score := rfl

/-- C8 counterexample: no pair of records identical except for a zero
versus an absent total_amount is assessed differently; both fire R5, so
the claim of different risk treatment fails on every such pair, in
particular at the otherwise-empty record. -/
theorem zero_vs_absent_not_different :
    ¬ ∃ (inv : InvoiceRecord) (stats : SystemStats),
      assess_export_risk { inv with total_amount := PyVal.num 0 } stats
        ≠ assess_export_risk { inv with total_amount := PyVal.none } stats := by
  rintro ⟨inv, stats, hne⟩
  exact hne rfl

/-- C8 amended: a total_amount of zero and an absent total_amount receive
the same risk treatment: assess returns equal outputs on any two records
identical except for that field being 0 versus absent. -/
theorem zero_vs_absent_same_assessment (inv : InvoiceRecord) (stats : SystemStats) :
    assess_export_risk { inv with total_amount := PyVal.num 0 } stats
      = assess_export_risk { inv with total_amount := PyVal.none } stats := rfl

/-- C9: the customs officer view collects the three clauses in fixed
order, independently of the score; when any clause is collected it puts
the question sentence before the semicolon-joined clauses, and otherwise returns the fixed
no-red-flags string. -/
theorem customs_officer_view_spec (inv : InvoiceRecord) :
    customs_officer_view inv
      = (if officerClauses inv = [] then
          "Invoice appears standard with no obvious red flags."
        else
          "A customs officer may question this shipment because "
            ++ String.intercalate "; " (officerClauses inv)) := by
  cases h2 : truthy inv.hsn_code <;> cases h3 : truthy inv.incoterms <;>
  by_cases h4 : inv.currency = PyVal.str "INR" <;>
    simp [customs_officer_view, officerClauses, h2, h3, h4, String.intercalate]

/-- Shared lemma: the stats returned by assess are the input stats with
risky_shipments incremented exactly when the level is Medium or High and
holds_predicted incremented exactly when the score is at least 70. -/
theorem assess_stats_effect (inv : InvoiceRecord) (stats : SystemStats) :
    (assess_export_risk inv stats).2.risky_shipments
        = (if riskLevel (assess_export_risk inv stats).1.risk_score = "Medium"
              ∨ riskLevel (assess_export_risk inv stats).1.risk_score = "High"
           then stats.risky_shipments + 1 else stats.risky_shipments)
    ∧ (assess_export_risk inv stats).2.holds_predicted
        = (if 70 ≤ (assess_export_risk inv stats).1.risk_score
           then stats.holds_predicted + 1 else stats.holds_predicted)
    ∧ (assess_export_risk inv stats).2.invoices_analyzed
        = stats.invoices_analyzed := by
  simp only [assess_export_risk]
  by_cases hm : riskLevel (min (assessPenalties inv).score 100) = "Medium"
      ∨ riskLevel (min (assessPenalties inv).score 100) = "High" <;>
  by_cases hh : 70 ≤ min (assessPenalties inv).score 100 <;>
    simp [hm, hh]

/-- C10: simulate_changes performs the engine counter side effects on the
simulated record: risky_shipments is incremented by 1 exactly when the
simulated level is Medium or High, holds_predicted exactly when the
simulated score is at least 70, and invoices_analyzed is untouched. -/
theorem simulate_counter_effects (inv : InvoiceRecord) (new_value : PyVal)
    (new_incoterm : String) (stats : SystemStats) :
    (simulate_changes inv new_value new_incoterm stats).2.risky_shipments
        = (if riskLevel (simulate_changes inv new_value new_incoterm stats).1.1 = "Medium"
              ∨ riskLevel (simulate_changes inv new_value new_incoterm stats).1.1 = "High"
           then stats.risky_shipments + 1 else stats.risky_shipments)
    ∧ (simulate_changes inv new_value new_incoterm stats).2.holds_predicted
        = (if 70 ≤ (simulate_changes inv new_value new_incoterm stats).1.1
           then stats.holds_predicted + 1 else stats.holds_predicted)
    ∧ (simulate_changes inv new_value new_incoterm stats).2.invoices_analyzed
        = stats.invoices_analyzed := by
  simp only [simulate_changes]
  exact assess_stats_effect _ stats
